import Mathlib

/-!
Verification development for the navipe payment-routing scripts.

The definitions below are a shallow embedding of the TypeScript sources:
- `RoutingEngine`: the scoring/selection engine in
  `src/windmill/scripts/payment/routing-engine.ts` (first script in the file);
- `ProcessFlow`: the payment processing workflow `main` in the same file
  (second script);
- `WebhookHandler`: the gateway webhook handler in `src/unnamed/part_011`.

Monetary amounts, fees, scores and latencies are JavaScript numbers in the
source; they are embedded as `ℚ` (all values occurring in the programs are
exact decimals).  Database reads/writes are embedded as explicit state
passing; the outcome of an external gateway call is an explicit parameter.
JavaScript truthiness quirks that the source relies on (a `0` or missing
field counting as absent) are reproduced where they occur.
-/

set_option maxRecDepth 100000

deriving instance DecidableEq for Except

namespace RoutingEngine

/-- A candidate row as returned by `getAvailableGateways` (already filtered by
the query to active bindings supporting the currency/method). -/
structure GatewayCandidate where
  gateway_id : String
  gateway_code : String
  priority : ℚ
  fee_percentage : ℚ
  fee_fixed : ℚ
deriving DecidableEq

/-- A health row as produced by `getGatewayHealthMetrics`. -/
structure GatewayHealth where
  gateway_id : String
  success_rate : ℚ
  average_response_time_ms : ℚ
  is_healthy : Bool
deriving DecidableEq

/-- `conditions.amount` of a routing rule. -/
structure AmountCond where
  min : Option ℚ
  max : Option ℚ
deriving DecidableEq

/-- `conditions.time_of_day` of a routing rule (`start`/`end` hours; `end` is
a reserved word in Lean, embedded as `stop`). -/
structure TimeOfDayCond where
  start : Int
  stop : Int
deriving DecidableEq

/-- The `conditions` JSON object of a routing rule; a missing (or JS-falsy)
field is `none`. -/
structure RuleConditions where
  amount : Option AmountCond
  currency : Option String
  payment_method : Option String
  time_of_day : Option TimeOfDayCond
deriving DecidableEq

/-- The `actions` JSON object of a routing rule; `distribution` is the JSON
object mapping gateway codes to weights. -/
structure RuleActions where
  preferred_gateway : Option String
  avoided_gateway : Option String
  distribution : List (String × ℚ)
deriving DecidableEq

/-- A routing-rule row as returned by `getRoutingRules`. -/
structure RoutingRule where
  name : String
  conditions : RuleConditions
  actions : RuleActions
deriving DecidableEq

/-- The transaction fields read by the routing engine. -/
structure TransactionInfo where
  amount : ℚ
  currency : String
  payment_method : String
deriving DecidableEq

/-- `calculateFee`: `(amount * percentage) + fixed`. -/
def calculateFee (amount percentage fixed : ℚ) : ℚ :=
  amount * percentage + fixed

/-- JS check `conditions.amount.min && transaction.amount < conditions.amount.min`:
a missing or zero `min` is falsy and never rejects. -/
def minViolated (o : Option ℚ) (amount : ℚ) : Bool :=
  match o with
  | none => false
  | some m => if m = 0 then false else decide (amount < m)

/-- JS check `conditions.amount.max && transaction.amount > conditions.amount.max`. -/
def maxViolated (o : Option ℚ) (amount : ℚ) : Bool :=
  match o with
  | none => false
  | some m => if m = 0 then false else decide (amount > m)

/-- Amount clause of `evaluateRule`. -/
def amountOk (c : RuleConditions) (amount : ℚ) : Bool :=
  match c.amount with
  | none => true
  | some a => !(minViolated a.min amount) && !(maxViolated a.max amount)

/-- Currency clause of `evaluateRule`. -/
def currencyOk (c : RuleConditions) (currency : String) : Bool :=
  match c.currency with
  | none => true
  | some x => currency == x

/-- Payment-method clause of `evaluateRule`. -/
def methodOk (c : RuleConditions) (payment_method : String) : Bool :=
  match c.payment_method with
  | none => true
  | some x => payment_method == x

/-- Time clause of `evaluateRule`: the source reads `new Date().getHours()`;
the current hour is threaded as an explicit parameter. -/
def timeOk (c : RuleConditions) (hour : Int) : Bool :=
  match c.time_of_day with
  | none => true
  | some t => !(decide (hour < t.start) || decide (hour > t.stop))

/-- `evaluateRule(rule, transaction, gateway)`: the `gateway` parameter is
unused in the source and omitted here.  The result depends on the wall-clock
`hour` when a `time_of_day` condition is present. -/
def evaluateRule (rule : RoutingRule) (tx : TransactionInfo) (hour : Int) : Bool :=
  amountOk rule.conditions tx.amount &&
  currencyOk rule.conditions tx.currency &&
  methodOk rule.conditions tx.payment_method &&
  timeOk rule.conditions hour

/-- Lookup in the `distribution` JSON object. -/
def lookupDist (d : List (String × ℚ)) (code : String) : Option ℚ :=
  (d.find? (fun e => e.1 == code)).map (fun e => e.2)

/-- `applyRuleScoreAdjustment(rule, gateway)`; `code` is `gateway.gateway_code`.
A distribution weight of `0` is JS-falsy and falls through to the final
`return 0`, which yields the same value. -/
def applyRuleScoreAdjustment (rule : RoutingRule) (code : String) : ℚ :=
  if rule.actions.preferred_gateway == some code then 50
  else if rule.actions.avoided_gateway == some code then -50
  else
    match lookupDist rule.actions.distribution code with
    | some w => w
    | none => 0

/-- The score computation of `main` step 4 for one candidate: base 100,
priority term, health term (only when a metric row exists), fee term, and
the accumulated rule adjustments. -/
def scoreGateway (tx : TransactionInfo) (healthMetrics : List GatewayHealth)
    (rules : List RoutingRule) (hour : Int) (gw : GatewayCandidate) : ℚ :=
  let s1 : ℚ := 100 + (10 - gw.priority) * 5
  let s2 : ℚ :=
    match healthMetrics.find? (fun h => h.gateway_id == gw.gateway_id) with
    | some h => s1 + h.success_rate - h.average_response_time_ms / 100
    | none => s1
  let s3 : ℚ := s2 - calculateFee tx.amount gw.fee_percentage gw.fee_fixed
  rules.foldl
    (fun acc r =>
      if evaluateRule r tx hour then acc + applyRuleScoreAdjustment r gw.gateway_code
      else acc)
    s3

/-- The health filter of `main` step 5: a candidate with no metric row passes
(`!health || health.is_healthy`). -/
def passesHealth (healthMetrics : List GatewayHealth) (g : GatewayCandidate) : Bool :=
  match healthMetrics.find? (fun h => h.gateway_id == g.gateway_id) with
  | some h => h.is_healthy
  | none => true

/-- `sort((a, b) => b.score - a.score)[0]` on a stable sort: the first element
of maximal score. -/
def pickBest : List (GatewayCandidate × ℚ) → Option (GatewayCandidate × ℚ)
  | [] => none
  | x :: xs => some (xs.foldl (fun b g => if b.2 < g.2 then g else b) x)

/-- The two failures `main` can throw. -/
inductive RoutingError
  | NoAvailableGateways
  | NoHealthyGateways
deriving DecidableEq

/-- The `RoutingDecision` returned by `main` (the human-readable `reason`
string is not modelled). -/
structure RoutingDecision where
  gateway_id : String
  gateway_code : String
  score : ℚ
deriving DecidableEq

/-- `main` of the routing engine, with the database reads
(`getAvailableGateways`, `getGatewayHealthMetrics`, `getRoutingRules`) passed
in as values and the wall-clock hour explicit. -/
def routeMain (tx : TransactionInfo) (availableGateways : List GatewayCandidate)
    (healthMetrics : List GatewayHealth) (rules : List RoutingRule) (hour : Int) :
    Except RoutingError RoutingDecision :=
  if availableGateways.isEmpty then .error .NoAvailableGateways
  else
    let scored := availableGateways.map
      (fun g => (g, scoreGateway tx healthMetrics rules hour g))
    match pickBest (scored.filter (fun s => passesHealth healthMetrics s.1)) with
    | none => .error .NoHealthyGateways
    | some best => .ok ⟨best.1.gateway_id, best.1.gateway_code, best.2⟩

/-- JS `x || default` on an aggregate average: `null` and `0` both yield the
default. -/
def orDefault (o : Option ℚ) (d : ℚ) : ℚ :=
  match o with
  | none => d
  | some v => if v = 0 then d else v

/-- `getGatewayHealthMetrics`: one input row per aggregate group
`(gateway_id, avg success_rate, avg average_response_time_ms)`; the 95/1000
defaults apply only to a group whose averages are null (or 0).  When no
metric rows exist at all there are no groups, and the result is `[]`. -/
def getGatewayHealthMetrics (rows : List (String × Option ℚ × Option ℚ)) :
    List GatewayHealth :=
  rows.map (fun r =>
    { gateway_id := r.1
      success_rate := orDefault r.2.1 95
      average_response_time_ms := orDefault r.2.2 1000
      is_healthy := decide (orDefault r.2.1 95 ≥ 80) &&
                    decide (orDefault r.2.2 1000 ≤ 5000) })

end RoutingEngine

namespace ProcessFlow

/-- The gateway sub-object of a `merchant_gateways` row fetched by the
processing workflow. -/
structure GatewayInfo where
  id : String
  gateway_code : String
  provider : String
deriving DecidableEq

/-- A `merchant_gateways` row (the fetch query already filters
`is_active = true`). -/
structure MerchantGateway where
  gateway : GatewayInfo
  priority : ℚ
deriving DecidableEq

/-- `conditions.amount` of a workflow routing rule. -/
structure ProcAmountCond where
  min : Option ℚ
  max : Option ℚ
deriving DecidableEq

/-- Conditions read by the workflow's `evaluateRule`. -/
structure ProcRuleConditions where
  amount : Option ProcAmountCond
  payment_method : Option String
deriving DecidableEq

/-- Actions read by the workflow's `applyRuleAction`. -/
structure ProcRuleActions where
  preferred_gateway : Option String
  use_priority : Bool
deriving DecidableEq

/-- A `routing_rules` row fetched by the processing workflow (already
filtered to active rules, ordered by ascending priority). -/
structure ProcRoutingRule where
  rule_type : String
  priority : ℚ
  conditions : ProcRuleConditions
  actions : ProcRuleActions
deriving DecidableEq

/-- The merchant configuration embedded in the fetched transaction. -/
structure Merchant where
  merchant_gateways : List MerchantGateway
  routing_rules : List ProcRoutingRule
deriving DecidableEq

/-- The `processPayment` result shape the workflow reads
(`paymentResult.transactionId` is the gateway-assigned id, possibly absent). -/
structure PayResult where
  transactionId : Option String
  success : Bool
deriving DecidableEq

/-- What the workflow persists into `gateway_response`: either the payment
result of step 6 or the `{error: message}` object of the catch block. -/
inductive StoredResponse
  | payment (r : PayResult)
  | failure (msg : String)
deriving DecidableEq

/-- The stored transaction row, merged with the merchant configuration the
fetch query joins onto it. -/
structure TxnRecord where
  id : String
  amount : ℚ
  currency : String
  payment_method : String
  status : String
  gateway_transaction_id : Option String
  gateway_response : Option StoredResponse
  merchant : Merchant
deriving DecidableEq

/-- A `routing_attempts` row inserted by `logRoutingAttempt`. -/
structure RoutingAttempt where
  attempt_number : Nat
  gateway_id : String
  status : String
  error_message : Option String
deriving DecidableEq

/-- The persistent state touched by one `process` invocation: the (single)
transaction row it addresses and the append-only attempts table. -/
structure ProcState where
  txn : Option TxnRecord
  attempts : List RoutingAttempt
deriving DecidableEq

/-- `updateTransactionStatus`: an unconditional `update_transactions_by_pk`
`_set`.  An argument of `none` models a JS `undefined` optional parameter:
`JSON.stringify` drops the variable, so the column stays unchanged; a
`some v` models an explicitly provided value (`some none` is an explicit
`null`).  The mutation has no condition on the stored status. -/
def updateTransactionStatus (st : ProcState) (status : String)
    (gatewayTransactionId : Option (Option String))
    (gatewayResponse : Option StoredResponse) : ProcState :=
  match st.txn with
  | none => st
  | some t =>
    let newTxn : TxnRecord :=
      { t with
        status := status
        gateway_transaction_id := gatewayTransactionId.getD t.gateway_transaction_id
        gateway_response :=
          match gatewayResponse with
          | none => t.gateway_response
          | some v => some v }
    { st with txn := some newTxn }

/-- The workflow's `evaluateRule` (distinct from the routing engine's): a
switch on `rule_type`; all unmatched cases fall through to `return true`. -/
def evaluateRule (rule : ProcRoutingRule) (tx : TxnRecord) : Bool :=
  if rule.rule_type == "amount" then
    match rule.conditions.amount with
    | some a =>
      !(RoutingEngine.minViolated a.min tx.amount) &&
      !(RoutingEngine.maxViolated a.max tx.amount)
    | none => true
  else if rule.rule_type == "method_based" then
    match rule.conditions.payment_method with
    | some pm => tx.payment_method == pm
    | none => true
  else true

/-- `sort((a, b) => a.priority - b.priority)[0]` on a stable sort: the first
element of minimal priority. -/
def pickMinPriority : List MerchantGateway → Option MerchantGateway
  | [] => none
  | x :: xs => some (xs.foldl (fun b g => if g.priority < b.priority then g else b) x)

/-- `applyRuleAction`: a preferred-gateway action looks the code up among the
merchant's bindings (yielding nothing when absent); `use_priority` picks the
lowest-priority binding. -/
def applyRuleAction (rule : ProcRoutingRule) (mgws : List MerchantGateway) :
    Option MerchantGateway :=
  match rule.actions.preferred_gateway with
  | some code => mgws.find? (fun mg => mg.gateway.gateway_code == code)
  | none => if rule.actions.use_priority then pickMinPriority mgws else none

/-- The workflow's `selectGateway`: first matching rule whose action yields a
binding wins; otherwise the lowest-priority binding.  The `strategy`
parameter is accepted and ignored, as in the source. -/
def selectGateway (tx : TxnRecord) (strategy : String) : Option GatewayInfo :=
  let fromRules := tx.merchant.routing_rules.findSome?
    (fun r =>
      if evaluateRule r tx then
        (applyRuleAction r tx.merchant.merchant_gateways).map (fun mg => mg.gateway)
      else none)
  match fromRules with
  | some g => some g
  | none => (pickMinPriority tx.merchant.merchant_gateways).map (fun mg => mg.gateway)

/-- Outcome of `processPaymentThroughGateway` (an external call): either the
result object, or a thrown error message (network failure, decline raised as
an exception, or the factory's "Unsupported gateway" throw). -/
inductive PayOutcome
  | ok (r : PayResult)
  | err (msg : String)
deriving DecidableEq

/-- The value `process` returns to its caller. -/
structure MainResult where
  success : Bool
  message : String
  gatewayUsed : Option String
  error : Option String
deriving DecidableEq

/-- The `{error: message}` catch path shared by every thrown error: update
the transaction to `failed` with an explicit `null` gateway id and the error
recorded, and report failure. -/
def failWith (st : ProcState) (msg : String) : MainResult × ProcState :=
  (⟨false, "Payment processing failed", none, some msg⟩,
   updateTransactionStatus st "failed" (some none) (some (.failure msg)))

/-- `main` of the payment processing workflow.  The transaction fetch is the
state's `txn`; the gateway call outcome is the `call` parameter.  On a
thrown gateway error the failed attempt is logged, the
`strategy === "failover"` branch is entered (its body is the source's
`// Implement failover logic here` comment — a no-op), and the error is
rethrown into the catch block. -/
def processMain (strategy : String) (call : PayOutcome) (st : ProcState) :
    MainResult × ProcState :=
  match st.txn with
  | none => failWith st "Transaction not found"
  | some t =>
    if t.status != "pending" then
      failWith st ("Transaction is already " ++ t.status)
    else
      let st1 := updateTransactionStatus st "processing" none none
      match selectGateway t strategy with
      | none => failWith st1 "No suitable gateway found for this transaction"
      | some gw =>
        match call with
        | .err m =>
          let st2 := { st1 with
            attempts := st1.attempts ++ [⟨1, gw.id, "failed", some m⟩] }
          failWith st2 m
        | .ok r =>
          let st2 := { st1 with
            attempts := st1.attempts ++ [⟨1, gw.id, "success", none⟩] }
          let st3 := updateTransactionStatus st2 "success"
            (match r.transactionId with
             | some i => some (some i)
             | none => none)
            (some (.payment r))
          (⟨true, "Payment processed successfully", some gw.gateway_code, none⟩, st3)

/-- The guard-then-transition sequence of steps 1–2 of `main`, split at the
read: `readStatus` is the status the fetch returned (possibly stale by the
time of the write).  The write itself is the unconditional
`updateTransactionStatus`. -/
def guardedTransition (readStatus : String) (st : ProcState) : Bool × ProcState :=
  if readStatus != "pending" then (false, st)
  else (true, updateTransactionStatus st "processing" none none)

end ProcessFlow

namespace WebhookHandler

/-- The JSON paths of `payload.data` that the handler's extractors read,
flattened into optional fields (a missing or JS-falsy value is `none`):
`object_id` is `data.object?.id`, `top_id` is `data.id`,
`razorpay_payment_id` is `data.payload?.payment?.entity?.id`, `entity_id` is
`data.entity?.id`, `paypal_resource_id` is `data.resource?.id`,
`object_amount_refunded` is `data.object?.amount_refunded`,
`razorpay_refund_amount` is `data.payload?.refund?.entity?.amount`,
`paypal_amount_value` is `data.resource?.amount?.value`, and
`metadata_transaction_id` is `data.metadata?.transaction_id`. -/
structure WebhookData where
  object_id : Option String
  top_id : Option String
  razorpay_payment_id : Option String
  entity_id : Option String
  paypal_resource_id : Option String
  transaction_id : Option String
  object_amount_refunded : Option ℚ
  razorpay_refund_amount : Option ℚ
  paypal_amount_value : Option ℚ
  refund_amount : Option ℚ
  metadata_transaction_id : Option String
  reference : Option String
  order_id : Option String
deriving DecidableEq

/-- The empty data object. -/
def WebhookData.empty : WebhookData :=
  ⟨none, none, none, none, none, none, none, none, none, none, none, none, none⟩

/-- The webhook payload fields the handler reads (signature/headers/body feed
only the external verification call, which is modelled separately). -/
structure WebhookPayload where
  gateway : String
  event_type : String
  data : WebhookData
deriving DecidableEq

/-- `extractGatewayTransactionId`; a result of `none` models the JS value
`undefined` (every `||`-chain member missing). -/
def extractGatewayTransactionId (p : WebhookPayload) : Option String :=
  if p.gateway == "stripe" then p.data.object_id.orElse (fun _ => p.data.top_id)
  else if p.gateway == "razorpay" then
    p.data.razorpay_payment_id.orElse (fun _ => p.data.entity_id)
  else if p.gateway == "paypal" then
    p.data.paypal_resource_id.orElse (fun _ => p.data.top_id)
  else p.data.transaction_id.orElse (fun _ => p.data.top_id)

/-- `extractRefundAmount`; `none` models the JS `NaN` produced when the
stripe/razorpay nested amount is missing (`undefined / 100`).  The paypal
and default branches fall back to `0` instead. -/
def extractRefundAmount (p : WebhookPayload) : Option ℚ :=
  if p.gateway == "stripe" then p.data.object_amount_refunded.map (fun a => a / 100)
  else if p.gateway == "razorpay" then
    p.data.razorpay_refund_amount.map (fun a => a / 100)
  else if p.gateway == "paypal" then some (p.data.paypal_amount_value.getD 0)
  else some (p.data.refund_amount.getD 0)

/-- `extractTransactionId` (used only for the dispute audit log). -/
def extractTransactionId (p : WebhookPayload) : String :=
  ((p.data.metadata_transaction_id.orElse
      (fun _ => p.data.reference)).orElse
      (fun _ => p.data.order_id)).getD ""

/-- A stored transaction row as seen by the webhook handler.
`refund_metadata` models the `refund_amount` entry `_append`ed to the
metadata by the refund path (`some none` records the JS `NaN`). -/
structure WTxn where
  id : String
  status : String
  amount : ℚ
  gateway_transaction_id : Option String
  gateway_response : Option WebhookData
  refund_metadata : Option (Option ℚ)
deriving DecidableEq

/-- A `webhooks` row (`logWebhook` inserts it with `processed := false`;
`markWebhookProcessed` later sets the flag). -/
structure WebhookRow where
  event_type : String
  gateway_code : String
  processed : Bool
deriving DecidableEq

/-- The persistent state the handler touches. -/
structure WDB where
  transactions : List WTxn
  webhooks : List WebhookRow
  audit_logs : Nat
  notifications : Nat
deriving DecidableEq

/-- The update object a per-event handler returns (`transactionUpdate`). -/
structure TxnUpdate where
  transaction_id : String
  status : String
  gateway_response : WebhookData
  refund_metadata : Option (Option ℚ)
  notify_merchant : Bool
deriving DecidableEq

/-- The `transactions(where: {gateway_transaction_id: {_eq: …}})` lookup used
by all three payment handlers, taking the first row.  An absent extracted id
matches nothing. -/
def findTxnByGatewayId (db : WDB) (gid : Option String) : Option WTxn :=
  match gid with
  | none => none
  | some g => db.transactions.find? (fun t => t.gateway_transaction_id == some g)

/-- `handlePaymentSuccess`: updates only a transaction whose current status
is `processing`. -/
def handlePaymentSuccess (p : WebhookPayload) (db : WDB) : Option TxnUpdate :=
  match findTxnByGatewayId db (extractGatewayTransactionId p) with
  | none => none
  | some t =>
    if t.status != "processing" then none
    else some ⟨t.id, "success", p.data, none, true⟩

/-- `handlePaymentFailure`: updates the found transaction to `failed` with no
check of its current status. -/
def handlePaymentFailure (p : WebhookPayload) (db : WDB) : Option TxnUpdate :=
  (findTxnByGatewayId db (extractGatewayTransactionId p)).map
    (fun t => ⟨t.id, "failed", p.data, none, true⟩)

/-- `refundAmount >= transaction.amount ? "refunded" : "success"`; a `none`
refund amount is the JS `NaN`, for which `>=` is false. -/
def refundTargetStatus (refundAmount : Option ℚ) (amount : ℚ) : String :=
  match refundAmount with
  | some r => if r ≥ amount then "refunded" else "success"
  | none => "success"

/-- `handleRefundProcessed`. -/
def handleRefundProcessed (p : WebhookPayload) (db : WDB) : Option TxnUpdate :=
  (findTxnByGatewayId db (extractGatewayTransactionId p)).map
    (fun t =>
      ⟨t.id, refundTargetStatus (extractRefundAmount p) t.amount, p.data,
       some (extractRefundAmount p), true⟩)

/-- `updateTransaction`: `update_transactions_by_pk` setting status and
gateway response, appending refund metadata when present. -/
def updateTransaction (db : WDB) (u : TxnUpdate) : WDB :=
  let apply : WTxn → WTxn := fun t =>
    if t.id == u.transaction_id then
      { t with
        status := u.status
        gateway_response := some u.gateway_response
        refund_metadata :=
          match u.refund_metadata with
          | none => t.refund_metadata
          | some v => some v }
    else t
  { db with transactions := db.transactions.map apply }

/-- `markWebhookProcessed` applied to the row `logWebhook` just inserted
(the last row of the table). -/
def markLast : List WebhookRow → Bool → List WebhookRow
  | [], _ => []
  | [w], b => [{ w with processed := b }]
  | w :: ws, b => w :: markLast ws b

/-- The value `main` returns. -/
structure HandleResult where
  success : Bool
  message : String
  processed : Bool
deriving DecidableEq

/-- `main` of the webhook handler.  `isValid` is the outcome of the external
signature verification (`verifyWebhookSignature`, modelled below); when it
is false the handler throws before logging anything, and the catch block
returns the failure without touching the state. -/
def webhookMain (p : WebhookPayload) (isValid : Bool) (db : WDB) :
    HandleResult × WDB :=
  if !isValid then (⟨false, "Invalid webhook signature", false⟩, db)
  else
    let db1 := { db with webhooks := db.webhooks ++ [⟨p.event_type, p.gateway, false⟩] }
    let step :
        Bool × Option TxnUpdate × WDB :=
      if p.event_type == "payment.success" || p.event_type == "payment_capture.completed" then
        (true, handlePaymentSuccess p db1, db1)
      else if p.event_type == "payment.failed" || p.event_type == "payment_capture.failed" then
        (true, handlePaymentFailure p db1, db1)
      else if p.event_type == "refund.processed" then
        (true, handleRefundProcessed p db1, db1)
      else if p.event_type == "dispute.created" then
        (true, none, { db1 with audit_logs := db1.audit_logs + 1 })
      else (false, none, db1)
    let processed := step.1
    let upd := step.2.1
    let db2 := step.2.2
    let db3 :=
      match upd with
      | some u => updateTransaction db2 u
      | none => db2
    let db4 := { db3 with webhooks := markLast db3.webhooks processed }
    let db5 :=
      match upd with
      | some u =>
        if u.notify_merchant then { db4 with notifications := db4.notifications + 1 }
        else db4
      | none => db4
    (⟨true, "Webhook processed successfully", processed⟩, db5)

/-- The `payment_gateways` row `getGatewayConfig` returns. -/
structure GatewayConfigRow where
  gateway_code : String
  provider : String
deriving DecidableEq

/-- Outcome of the gateway implementation's `verifyWebhookSignature` call:
it returns a boolean or throws. -/
inductive VerifyOutcome
  | ok (b : Bool)
  | thrown
deriving DecidableEq

/-- `verifyWebhookSignature` of the handler.  `config` is the
`getGatewayConfig` lookup result; `createGateway` models the factory: for a
provider it yields the registered implementation's verification outcome, or
`none` when no implementation is registered.  A missing configuration row
returns false; a missing implementation returns true
("Allow processing if gateway not supported"); a throwing implementation is
caught and returns false. -/
def verifyWebhookSignature (config : Option GatewayConfigRow)
    (createGateway : String → Option VerifyOutcome) : Bool :=
  match config with
  | none => false
  | some c =>
    match createGateway c.provider with
    | none => true
    | some (.ok b) => b
    | some .thrown => false

end WebhookHandler

/-! Concrete fixtures used by the witnesses and counterexamples below. -/

/-- The §8 scenario transaction: 500.00 INR paid by UPI. -/
def txScenario : RoutingEngine.TransactionInfo := ⟨500, "INR", "upi"⟩

/-- Razorpay binding of the §8 scenario: priority 1, fee 2%. -/
def rzpBinding : RoutingEngine.GatewayCandidate := ⟨"gw_rzp", "razorpay_main", 1, 1/50, 0⟩

/-- Stripe binding of the §8 scenario: priority 2, fee 2.9%. -/
def stripeBinding : RoutingEngine.GatewayCandidate := ⟨"gw_str", "stripe_main", 2, 29/1000, 0⟩

/-- The §8 scenario rule preferring razorpay for UPI. -/
def upiRule : RoutingEngine.RoutingRule :=
  ⟨"upi_pref", ⟨none, none, some "upi", none⟩, ⟨some "razorpay_main", none, []⟩⟩

/-- A stored health metric marking `gw_rzp` unhealthy (50% success rate). -/
def unhealthyMetric : RoutingEngine.GatewayHealth := ⟨"gw_rzp", 50, 1000, false⟩

/-- A business-hours rule (9:00–17:00) preferring gateway code `B`. -/
def dayRule : RoutingEngine.RoutingRule :=
  ⟨"day_pref", ⟨none, none, none, some ⟨9, 17⟩⟩, ⟨some "B", none, []⟩⟩

/-- A 10.00 USD card transaction. -/
def txUSD : RoutingEngine.TransactionInfo := ⟨10, "USD", "card"⟩

/-- Fee-free candidate `A` at priority 1. -/
def gwA : RoutingEngine.GatewayCandidate := ⟨"gA", "A", 1, 0, 0⟩

/-- Fee-free candidate `B` at priority 5. -/
def gwB : RoutingEngine.GatewayCandidate := ⟨"gB", "B", 5, 0, 0⟩

/-- A merchant with two active gateway bindings (a second eligible candidate
exists for failover). -/
def merchantTwoGateways : ProcessFlow.Merchant :=
  ⟨[⟨⟨"gw1", "stripe_main", "stripe"⟩, 1⟩, ⟨⟨"gw2", "razorpay_main", "razorpay"⟩, 2⟩], []⟩

/-- A transaction still in `pending`. -/
def pendingTxn : ProcessFlow.TxnRecord :=
  ⟨"t1", 500, "INR", "upi", "pending", none, none, merchantTwoGateways⟩

/-- A transaction already completed as `success`, with its gateway id and
response persisted. -/
def succeededTxn : ProcessFlow.TxnRecord :=
  ⟨"t1", 500, "INR", "upi", "success", some "gtx_1",
   some (.payment ⟨some "gtx_1", true⟩), merchantTwoGateways⟩

/-- State holding the pending transaction. -/
def stPending : ProcessFlow.ProcState := ⟨some pendingTxn, []⟩

/-- State holding the succeeded transaction. -/
def stSucceeded : ProcessFlow.ProcState := ⟨some succeededTxn, []⟩

/-- A stored transaction in terminal `success` as the webhook handler sees it. -/
def successTxnW : WebhookHandler.WTxn := ⟨"t1", "success", 500, some "gt1", none, none⟩

/-- Webhook-side database holding only `successTxnW`. -/
def dbW : WebhookHandler.WDB := ⟨[successTxnW], [], 0, 0⟩

/-- A razorpay `payment.failed` event referencing `gt1`. -/
def failedEventPayload : WebhookHandler.WebhookPayload :=
  ⟨"razorpay", "payment.failed",
   { WebhookHandler.WebhookData.empty with razorpay_payment_id := some "gt1" }⟩

/-- A razorpay `refund.processed` event for `gt1` refunding 50000 paise
(500.00 after the `/100`). -/
def refundPayload : WebhookHandler.WebhookPayload :=
  ⟨"razorpay", "refund.processed",
   { WebhookHandler.WebhookData.empty with
     razorpay_payment_id := some "gt1", razorpay_refund_amount := some 50000 }⟩

/-! Helper lemmas shared between claims. -/

/-- `pickBest` yields nothing exactly on the empty list. -/
theorem RoutingEngine.pickBest_eq_none (xs : List (RoutingEngine.GatewayCandidate × ℚ)) :
    RoutingEngine.pickBest xs = none ↔ xs = [] := by
  cases xs <;> simp [RoutingEngine.pickBest]

/-- The fold underlying `pickBest` stays within its inputs. -/
theorem RoutingEngine.foldlBest_mem (l : List (RoutingEngine.GatewayCandidate × ℚ)) :
    ∀ a, l.foldl (fun b g => if b.2 < g.2 then g else b) a ∈ a :: l := by
  induction l with
  | nil => intro a; simp
  | cons x xs ih =>
    intro a
    simp only [List.foldl_cons]
    by_cases hlt : a.2 < x.2
    · rw [if_pos hlt]
      rcases List.mem_cons.mp (ih x) with h' | h' <;> simp [h']
    · rw [if_neg hlt]
      rcases List.mem_cons.mp (ih a) with h' | h' <;> simp [h']

/-- The result of `pickBest` is an element of its input list. -/
theorem RoutingEngine.pickBest_mem (xs : List (RoutingEngine.GatewayCandidate × ℚ))
    (b : RoutingEngine.GatewayCandidate × ℚ) (h : RoutingEngine.pickBest xs = some b) :
    b ∈ xs := by
  cases xs with
  | nil => simp [RoutingEngine.pickBest] at h
  | cons a l =>
    simp only [RoutingEngine.pickBest, Option.some.injEq] at h
    exact h ▸ RoutingEngine.foldlBest_mem l a

/-- A rule with no `time_of_day` condition evaluates identically at any hour. -/
theorem RoutingEngine.evaluateRule_hour_invariant (r : RoutingEngine.RoutingRule)
    (tx : RoutingEngine.TransactionInfo) (h1 h2 : Int)
    (ht : r.conditions.time_of_day = none) :
    RoutingEngine.evaluateRule r tx h1 = RoutingEngine.evaluateRule r tx h2 := by
  simp [RoutingEngine.evaluateRule, RoutingEngine.timeOk, ht]

/-- The rule-adjustment fold is hour-independent when no rule carries a
`time_of_day` condition. -/
theorem RoutingEngine.foldl_rules_hour_invariant (tx : RoutingEngine.TransactionInfo)
    (code : String) (h1 h2 : Int) :
    ∀ rules : List RoutingEngine.RoutingRule,
      (∀ r ∈ rules, r.conditions.time_of_day = none) →
      ∀ init : ℚ,
        rules.foldl
          (fun acc r =>
            if RoutingEngine.evaluateRule r tx h1 then
              acc + RoutingEngine.applyRuleScoreAdjustment r code
            else acc) init =
        rules.foldl
          (fun acc r =>
            if RoutingEngine.evaluateRule r tx h2 then
              acc + RoutingEngine.applyRuleScoreAdjustment r code
            else acc) init := by
  intro rules
  induction rules with
  | nil => intro _ _; rfl
  | cons r rs ih =>
    intro ht init
    simp only [List.foldl_cons]
    rw [RoutingEngine.evaluateRule_hour_invariant r tx h1 h2 (ht r (List.mem_cons_self r rs))]
    exact ih (fun x hx => ht x (List.mem_cons_of_mem r hx)) _

/-- A candidate's score is hour-independent when no rule carries a
`time_of_day` condition. -/
theorem RoutingEngine.scoreGateway_hour_invariant (tx : RoutingEngine.TransactionInfo)
    (hm : List RoutingEngine.GatewayHealth) (rules : List RoutingEngine.RoutingRule)
    (h1 h2 : Int) (gw : RoutingEngine.GatewayCandidate)
    (ht : ∀ r ∈ rules, r.conditions.time_of_day = none) :
    RoutingEngine.scoreGateway tx hm rules h1 gw =
      RoutingEngine.scoreGateway tx hm rules h2 gw := by
  unfold RoutingEngine.scoreGateway
  exact RoutingEngine.foldl_rules_hour_invariant tx gw.gateway_code h1 h2 rules ht _

/-! Claim theorems. -/

/-- C4 counterexample: on the §8 scenario (500.00 INR by UPI, razorpay
priority 1 fee 2%, stripe priority 2 fee 2.9%, no stored health metrics, one
UPI-preference rule) the engine selects razorpay with score 185, not the
claimed 280: with no metric row the scoring loop adds no health term at all. -/
theorem routing_scenario_score_not_280 :
    RoutingEngine.routeMain txScenario [rzpBinding, stripeBinding]
        (RoutingEngine.getGatewayHealthMetrics []) [upiRule] 12 =
      .ok ⟨"gw_rzp", "razorpay_main", 185⟩ ∧
    (.ok ⟨"gw_rzp", "razorpay_main", 185⟩ :
        Except RoutingEngine.RoutingError RoutingEngine.RoutingDecision) ≠
      .ok ⟨"gw_rzp", "razorpay_main", 280⟩ := by
  with_unfolding_all decide

/-- C4 (amended): the scenario selects razorpay with total score exactly
185 = 100 (base) + 45 (priority) − 10 (fee) + 50 (rule); a candidate with no
stored health metric contributes no health term, because with no metric rows
`getGatewayHealthMetrics` returns no entries and the scoring loop skips the
health term entirely (the 95%/1000ms defaults apply only to existing
aggregate rows with null averages). -/
theorem routing_scenario_score_185 :
    RoutingEngine.routeMain txScenario [rzpBinding, stripeBinding]
        (RoutingEngine.getGatewayHealthMetrics []) [upiRule] 12 =
      .ok ⟨"gw_rzp", "razorpay_main", 185⟩ ∧
    ∀ (tx : RoutingEngine.TransactionInfo) (rules : List RoutingEngine.RoutingRule)
      (hour : Int) (gw : RoutingEngine.GatewayCandidate),
      RoutingEngine.scoreGateway tx (RoutingEngine.getGatewayHealthMetrics []) rules hour gw =
        rules.foldl
          (fun acc r =>
            if RoutingEngine.evaluateRule r tx hour then
              acc + RoutingEngine.applyRuleScoreAdjustment r gw.gateway_code
            else acc)
          (100 + (10 - gw.priority) * 5 -
            RoutingEngine.calculateFee tx.amount gw.fee_percentage gw.fee_fixed) := by
  constructor
  · with_unfolding_all decide
  · intro tx rules hour gw
    simp [RoutingEngine.scoreGateway, RoutingEngine.getGatewayHealthMetrics]

/-- C5 counterexample: a nonempty candidate list whose sole candidate has an
unhealthy stored metric is rejected with `NoHealthyGateways` — the health
filter is applied even though it eliminates every candidate, contradicting
the claimed fallback-to-availability policy. -/
theorem routing_unhealthy_sole_candidate_rejected :
    RoutingEngine.routeMain txScenario [rzpBinding] [unhealthyMetric] [] 12 =
      .error .NoHealthyGateways ∧
    ([rzpBinding] : List RoutingEngine.GatewayCandidate) ≠ [] := by
  with_unfolding_all decide

/-- C5 (amended): the health filter is always applied; a candidate with no
metric row passes it, and `NoHealthyGateway` is raised exactly when the
candidate list is nonempty but every candidate has a metric marking it
unhealthy (an empty candidate list raises `NoEligibleGateway` instead). -/
theorem routing_noHealthy_iff_all_unhealthy (tx : RoutingEngine.TransactionInfo)
    (gws : List RoutingEngine.GatewayCandidate) (hm : List RoutingEngine.GatewayHealth)
    (rules : List RoutingEngine.RoutingRule) (hour : Int) :
    RoutingEngine.routeMain tx gws hm rules hour = .error .NoHealthyGateways ↔
      gws ≠ [] ∧ ∀ g ∈ gws, RoutingEngine.passesHealth hm g = false := by
  cases gws with
  | nil => simp [RoutingEngine.routeMain]
  | cons a l =>
    simp only [RoutingEngine.routeMain, List.isEmpty_cons]
    cases hpb : RoutingEngine.pickBest
        (((a :: l).map (fun g => (g, RoutingEngine.scoreGateway tx hm rules hour g))).filter
          (fun s => RoutingEngine.passesHealth hm s.1)) with
    | none =>
      simp only [Bool.false_eq_true, if_false, hpb]
      constructor
      · intro _
        refine ⟨by simp, ?_⟩
        have hnil := (RoutingEngine.pickBest_eq_none _).mp hpb
        rw [List.filter_eq_nil_iff] at hnil
        intro g hg
        have hmem : (g, RoutingEngine.scoreGateway tx hm rules hour g) ∈
            (a :: l).map (fun g => (g, RoutingEngine.scoreGateway tx hm rules hour g)) :=
          List.mem_map_of_mem _ hg
        simpa using hnil _ hmem
      · intro _; trivial
    | some b =>
      simp only [Bool.false_eq_true, if_false, hpb]
      constructor
      · intro h; exact absurd h (by simp)
      · rintro ⟨-, hall⟩
        exfalso
        have hb := RoutingEngine.pickBest_mem _ _ hpb
        have hbf := List.mem_filter.mp hb
        rcases List.mem_map.mp hbf.1 with ⟨g, hg, hgb⟩
        have hpass : RoutingEngine.passesHealth hm b.1 = true := hbf.2
        have hb1 : b.1 = g := by rw [← hgb]
        rw [hb1] at hpass
        rw [hall g hg] at hpass
        exact Bool.false_ne_true hpass

/-- C8 counterexample: with identical bindings, health metrics and rules, the
engine selects gateway `B` (score 175) when evaluated at hour 12 but gateway
`A` (score 145) at hour 3, because `evaluateRule` reads the wall-clock hour
for `time_of_day` rule conditions — the selection is not independent of when
it runs. -/
theorem routing_selection_depends_on_hour :
    RoutingEngine.routeMain txUSD [gwA, gwB] [] [dayRule] 12 = .ok ⟨"gB", "B", 175⟩ ∧
    RoutingEngine.routeMain txUSD [gwA, gwB] [] [dayRule] 3 = .ok ⟨"gA", "A", 145⟩ ∧
    RoutingEngine.routeMain txUSD [gwA, gwB] [] [dayRule] 12 ≠
      RoutingEngine.routeMain txUSD [gwA, gwB] [] [dayRule] 3 := by
  with_unfolding_all decide

/-- C8 (amended): gateway selection is a deterministic pure function of the
candidate bindings, health metrics, rules, and the wall-clock hour read
during rule evaluation; whenever no rule carries a `time_of_day` condition,
the result is moreover independent of the hour. -/
theorem routing_selection_hour_invariant_without_time_rules
    (tx : RoutingEngine.TransactionInfo) (gws : List RoutingEngine.GatewayCandidate)
    (hm : List RoutingEngine.GatewayHealth) (rules : List RoutingEngine.RoutingRule)
    (h1 h2 : Int) (ht : ∀ r ∈ rules, r.conditions.time_of_day = none) :
    RoutingEngine.routeMain tx gws hm rules h1 =
      RoutingEngine.routeMain tx gws hm rules h2 := by
  unfold RoutingEngine.routeMain
  have hmap : gws.map (fun g => (g, RoutingEngine.scoreGateway tx hm rules h1 g)) =
      gws.map (fun g => (g, RoutingEngine.scoreGateway tx hm rules h2 g)) :=
    List.map_congr_left (fun g _ => by
      rw [RoutingEngine.scoreGateway_hour_invariant tx hm rules h1 h2 g ht])
  rw [hmap]

/-- C8 witness: applying the hour-invariance theorem on a rule set with no
`time_of_day` conditions. -/
theorem routing_selection_hour_invariant_witness :
    (∀ r ∈ [upiRule], r.conditions.time_of_day = none) ∧
    RoutingEngine.routeMain txScenario [rzpBinding, stripeBinding] [] [upiRule] 12 =
      RoutingEngine.routeMain txScenario [rzpBinding, stripeBinding] [] [upiRule] 3 :=
  ⟨by simp [upiRule],
   routing_selection_hour_invariant_without_time_rules txScenario
     [rzpBinding, stripeBinding] [] [upiRule] 12 3 (by simp [upiRule])⟩

/-- C1: invoking `process` on a transaction whose stored status is not
`pending` is not a no-op.  The caller does receive the already-processed
failure, but the idempotency guard throws into the catch-all error path,
which overwrites the stored status to `failed`, nulls the gateway
transaction id, and replaces the gateway response with the error object —
the duplicate trigger does move the transaction to `failed`. -/
theorem process_nonPending_marks_failed
    (st : ProcessFlow.ProcState) (t : ProcessFlow.TxnRecord)
    (hst : st.txn = some t) (hs : t.status ≠ "pending")
    (strategy : String) (call : ProcessFlow.PayOutcome) :
    (ProcessFlow.processMain strategy call st).1 =
      ⟨false, "Payment processing failed", none,
       some ("Transaction is already " ++ t.status)⟩ ∧
    (ProcessFlow.processMain strategy call st).2 =
      ⟨some { t with
          status := "failed", gateway_transaction_id := none,
          gateway_response :=
            some (.failure ("Transaction is already " ++ t.status)) },
       st.attempts⟩ := by
  have hbne : (t.status != "pending") = true := bne_iff_ne.mpr hs
  simp [ProcessFlow.processMain, hst, hbne, ProcessFlow.failWith,
    ProcessFlow.updateTransactionStatus]

/-- C1 witness: a transaction already in `success` is moved to `failed` by a
duplicate trigger. -/
theorem process_nonPending_marks_failed_witness :
    stSucceeded.txn = some succeededTxn ∧ succeededTxn.status ≠ "pending" ∧
    ((ProcessFlow.processMain "default" (.ok ⟨some "x", true⟩) stSucceeded).1 =
      ⟨false, "Payment processing failed", none,
       some ("Transaction is already " ++ succeededTxn.status)⟩ ∧
     (ProcessFlow.processMain "default" (.ok ⟨some "x", true⟩) stSucceeded).2 =
      ⟨some { succeededTxn with
          status := "failed", gateway_transaction_id := none,
          gateway_response :=
            some (.failure ("Transaction is already " ++ succeededTxn.status)) },
       stSucceeded.attempts⟩) :=
  ⟨rfl, by decide,
   process_nonPending_marks_failed stSucceeded succeededTxn rfl (by decide)
     "default" (.ok ⟨some "x", true⟩)⟩

/-- C2: when the gateway call fails under strategy `failover`, the workflow
records exactly one `RoutingAttempt` (number 1, against the gateway that
failed) and transitions the transaction to `failed`; no second routing round
is performed even when other eligible bindings exist, because the failover
branch of the source is an unimplemented placeholder comment. -/
theorem process_failover_single_attempt
    (st : ProcessFlow.ProcState) (t : ProcessFlow.TxnRecord)
    (gw : ProcessFlow.GatewayInfo) (m : String)
    (hst : st.txn = some t) (hp : t.status = "pending")
    (hsel : ProcessFlow.selectGateway t "failover" = some gw) :
    ProcessFlow.processMain "failover" (.err m) st =
      (⟨false, "Payment processing failed", none, some m⟩,
       ⟨some { t with
           status := "failed", gateway_transaction_id := none,
           gateway_response := some (.failure m) },
        st.attempts ++ [⟨1, gw.id, "failed", some m⟩]⟩) := by
  have hbne : (t.status != "pending") = false := by simp [hp]
  simp [ProcessFlow.processMain, hst, hbne, hsel, ProcessFlow.failWith,
    ProcessFlow.updateTransactionStatus]

/-- C2 witness: a merchant with a second eligible binding still gets a single
failed attempt and a `failed` transaction. -/
theorem process_failover_single_attempt_witness :
    stPending.txn = some pendingTxn ∧ pendingTxn.status = "pending" ∧
    ProcessFlow.selectGateway pendingTxn "failover" = some ⟨"gw1", "stripe_main", "stripe"⟩ ∧
    ProcessFlow.processMain "failover" (.err "timeout") stPending =
      (⟨false, "Payment processing failed", none, some "timeout"⟩,
       ⟨some { pendingTxn with
           status := "failed", gateway_transaction_id := none,
           gateway_response := some (.failure "timeout") },
        [⟨1, "gw1", "failed", some "timeout"⟩]⟩) :=
  ⟨rfl, rfl, by with_unfolding_all decide,
   process_failover_single_attempt stPending pendingTxn ⟨"gw1", "stripe_main", "stripe"⟩
     "timeout" rfl rfl (by with_unfolding_all decide)⟩

/-- C7 counterexample: `updateTransactionStatus` does not fail when the
stored status differs from `pending`: applied to a transaction stored as
`success`, the write still sets the status to `processing` — the transition
is not a conditional compare-and-set. -/
theorem process_updateStatus_ignores_stored_status :
    succeededTxn.status = "success" ∧
    (ProcessFlow.updateTransactionStatus stSucceeded "processing" none none).txn =
      some { succeededTxn with status := "processing" } := by
  with_unfolding_all decide

/-- C7 (amended): the pending→processing step is a non-atomic read-then-write.
`updateTransactionStatus` overwrites the stored row unconditionally — it has
no failure outcome and no condition on the prior status — and two `process`
invocations whose status reads both happen before either write both pass the
guard and both apply the transition, so neither receives AlreadyProcessed. -/
theorem process_guard_not_atomic
    (st : ProcessFlow.ProcState) (t : ProcessFlow.TxnRecord) (hst : st.txn = some t)
    (status : String) (gtid : Option (Option String))
    (gresp : Option ProcessFlow.StoredResponse) :
    ((ProcessFlow.updateTransactionStatus st status gtid gresp).txn =
      some { t with
        status := status,
        gateway_transaction_id := gtid.getD t.gateway_transaction_id,
        gateway_response :=
          (match gresp with
           | none => t.gateway_response
           | some v => some v) }) ∧
    (t.status = "pending" →
      (ProcessFlow.guardedTransition t.status st).1 = true ∧
      (ProcessFlow.guardedTransition t.status
          ((ProcessFlow.guardedTransition t.status st).2)).1 = true ∧
      ((ProcessFlow.guardedTransition t.status
          ((ProcessFlow.guardedTransition t.status st).2)).2).txn =
        some { t with status := "processing" }) := by
  constructor
  · simp [ProcessFlow.updateTransactionStatus, hst]
  · intro hp
    simp [ProcessFlow.guardedTransition, hp, ProcessFlow.updateTransactionStatus, hst]

/-- C7 witness: both racing invocations on a pending transaction pass the
guard. -/
theorem process_guard_not_atomic_witness :
    stPending.txn = some pendingTxn ∧
    (((ProcessFlow.updateTransactionStatus stPending "processing" none none).txn =
       some { pendingTxn with
         status := "processing",
         gateway_transaction_id := (none : Option (Option String)).getD
           pendingTxn.gateway_transaction_id,
         gateway_response :=
           (match (none : Option ProcessFlow.StoredResponse) with
            | none => pendingTxn.gateway_response
            | some v => some v) }) ∧
     (pendingTxn.status = "pending" →
       (ProcessFlow.guardedTransition pendingTxn.status stPending).1 = true ∧
       (ProcessFlow.guardedTransition pendingTxn.status
           ((ProcessFlow.guardedTransition pendingTxn.status stPending).2)).1 = true ∧
       ((ProcessFlow.guardedTransition pendingTxn.status
           ((ProcessFlow.guardedTransition pendingTxn.status stPending).2)).2).txn =
         some { pendingTxn with status := "processing" })) :=
  ⟨rfl, process_guard_not_atomic stPending pendingTxn rfl "processing" none none⟩

/-- Finding a transaction by gateway id depends only on the transactions
table. -/
theorem WebhookHandler.findTxn_congr (db db' : WebhookHandler.WDB)
    (h : db.transactions = db'.transactions) (gid : Option String) :
    WebhookHandler.findTxnByGatewayId db gid =
      WebhookHandler.findTxnByGatewayId db' gid := by
  cases gid <;> simp [WebhookHandler.findTxnByGatewayId, h]

/-- C3 counterexample: when signature verification fails the handler stores
nothing at all: starting from a database with an empty webhooks table, the
state is returned completely unchanged — no WebhookRecord marked with a
verification error exists afterwards. -/
theorem webhook_invalid_signature_nothing_stored :
    WebhookHandler.webhookMain failedEventPayload false dbW =
      (⟨false, "Invalid webhook signature", false⟩, dbW) ∧
    dbW.webhooks = [] := by
  with_unfolding_all decide

/-- C3 (amended): on a failed signature verification the handler throws
before logging, so it returns success `false` and processed `false` with the
message "Invalid webhook signature" and leaves the entire database state —
webhooks table and transactions alike — unchanged. -/
theorem webhook_invalid_signature_no_mutation
    (p : WebhookHandler.WebhookPayload) (db : WebhookHandler.WDB) :
    WebhookHandler.webhookMain p false db =
      (⟨false, "Invalid webhook signature", false⟩, db) := by
  simp [WebhookHandler.webhookMain]

/-- C6: a `payment.failed` webhook for a transaction already in terminal
`success` moves it to `failed` — a reversed terminal edge.
`handlePaymentFailure` looks the transaction up by gateway id and applies the
`failed` status with no check of the current status (unlike
`handlePaymentSuccess`, which only updates a `processing` transaction). -/
theorem webhook_paymentFailed_reverses_success :
    successTxnW.status = "success" ∧
    ((WebhookHandler.webhookMain failedEventPayload true dbW).2.transactions.map
      WebhookHandler.WTxn.status) = ["failed"] := by
  with_unfolding_all decide

/-- C10: `verifyWebhookSignature` returns true exactly when the gateway
configuration row exists and the factory either has no registered
implementation for its provider (the webhook is accepted with no signature
check at all) or the implementation returns true; it returns false exactly
when the configuration row is missing or the implementation returns false or
throws. -/
theorem webhook_verify_missing_impl_accepts
    (config : Option WebhookHandler.GatewayConfigRow)
    (createGateway : String → Option WebhookHandler.VerifyOutcome) :
    (WebhookHandler.verifyWebhookSignature config createGateway = true ↔
      ∃ c, config = some c ∧
        (createGateway c.provider = none ∨
         createGateway c.provider = some (.ok true))) ∧
    (WebhookHandler.verifyWebhookSignature config createGateway = false ↔
      config = none ∨
      ∃ c, config = some c ∧
        (createGateway c.provider = some (.ok false) ∨
         createGateway c.provider = some .thrown)) := by
  cases config with
  | none => simp [WebhookHandler.verifyWebhookSignature]
  | some c =>
    cases hf : createGateway c.provider with
    | none => simp [WebhookHandler.verifyWebhookSignature, hf]
    | some v =>
      cases v with
      | ok b => cases b <;> simp [WebhookHandler.verifyWebhookSignature, hf]
      | thrown => simp [WebhookHandler.verifyWebhookSignature, hf]

/-- C9: a handled `refund.processed` webhook whose referenced transaction is
found sets that transaction's status to `refunded` when the extracted refund
amount is at least the transaction amount and to `success` (partial refund)
when it is smaller, persisting the gateway response payload (and appending
the refund amount to the metadata); all other transactions are untouched. -/
theorem webhook_refund_sets_status
    (p : WebhookHandler.WebhookPayload) (db : WebhookHandler.WDB)
    (t : WebhookHandler.WTxn) (r : ℚ)
    (hev : p.event_type = "refund.processed")
    (hfind : WebhookHandler.findTxnByGatewayId db
        (WebhookHandler.extractGatewayTransactionId p) = some t)
    (hr : WebhookHandler.extractRefundAmount p = some r) :
    (WebhookHandler.webhookMain p true db).2.transactions =
      db.transactions.map (fun u =>
        if u.id == t.id then
          { u with
            status := if r ≥ t.amount then "refunded" else "success",
            gateway_response := some p.data,
            refund_metadata := some (some r) }
        else u) := by
  obtain ⟨pg, pe, pd⟩ := p
  dsimp only at hev
  subst hev
  have h1 : WebhookHandler.findTxnByGatewayId
      ⟨db.transactions,
       db.webhooks ++ [⟨"refund.processed", pg, false⟩],
       db.audit_logs, db.notifications⟩
      (WebhookHandler.extractGatewayTransactionId ⟨pg, "refund.processed", pd⟩) = some t :=
    (WebhookHandler.findTxn_congr
      ⟨db.transactions, db.webhooks ++ [⟨"refund.processed", pg, false⟩],
       db.audit_logs, db.notifications⟩ db rfl _).trans hfind
  simp [WebhookHandler.webhookMain, WebhookHandler.handleRefundProcessed, h1, hr,
    WebhookHandler.refundTargetStatus, WebhookHandler.updateTransaction,
    WebhookHandler.markLast]

/-- C9 witness: a razorpay refund of 50000 paise (500.00) against the stored
500.00 transaction marks it `refunded`. -/
theorem webhook_refund_sets_status_witness :
    refundPayload.event_type = "refund.processed" ∧
    WebhookHandler.findTxnByGatewayId dbW
      (WebhookHandler.extractGatewayTransactionId refundPayload) = some successTxnW ∧
    WebhookHandler.extractRefundAmount refundPayload = some 500 ∧
    (WebhookHandler.webhookMain refundPayload true dbW).2.transactions =
      dbW.transactions.map (fun u =>
        if u.id == successTxnW.id then
          { u with
            status := if (500 : ℚ) ≥ successTxnW.amount then "refunded" else "success",
            gateway_response := some refundPayload.data,
            refund_metadata := some (some 500) }
        else u) :=
  ⟨rfl, by with_unfolding_all decide, by with_unfolding_all decide,
   webhook_refund_sets_status refundPayload dbW successTxnW 500 rfl
     (by with_unfolding_all decide) (by with_unfolding_all decide)⟩
